import Mathlib

/-!
Shallow embedding of the aviation-analytics ingest/validation core
(src/src/ingest/otp.py, src/src/ingest/metar.py, src/src/ingest/tsa.py,
src/src/validation/checks.py, src/src/utils/dates.py, and the manifest
hash of src/app/pages/1_Admin_Ingest.py), together with theorems settling
the frozen claims about the natural-language specification.

Modelling conventions:
- dates are integer day numbers, timestamps integer hour numbers;
- a pandas DataFrame is a list of named columns plus a list of rows;
- numpy's seeded generator, Python's builtin string hash and the SHA-256
  digest are libraries outside the repository; they are modelled by
  concrete deterministic stand-ins (marked below) that keep exactly the
  structure the claims depend on (seeding, statefulness, injectivity);
- fallible Python code (column lookups, to_datetime, explicit raises) is
  embedded in the Except monad; a try/except block is a match on it.
-/

namespace Aviation

/-- Cell values of a dataframe. `null` models pandas NaN/None; `date` is an
integer day number and `time` an integer hour number. -/
inductive Value where
  | null
  | int (i : Int)
  | rat (q : Rat)
  | str (s : String)
  | date (d : Int)
  | time (t : Int)
deriving DecidableEq

/-- A pandas DataFrame: named columns and a list of rows.  A well-formed
frame has every row of the same length as `cols`. -/
structure Frame where
  cols : List String
  rows : List (List Value)
deriving DecidableEq

/-- `pd.DataFrame()`: the all-empty frame. -/
def emptyFrame : Frame := ⟨[], []⟩

/-- `df.empty`: true when the frame has no rows or no columns. -/
def Frame.isEmpty (df : Frame) : Bool := df.rows.isEmpty || df.cols.isEmpty

/-- `df.size`: number of cells. -/
def Frame.size (df : Frame) : Nat := df.rows.length * df.cols.length

/-- `df[name]`: the cells of a column, when the column exists. -/
def Frame.col (df : Frame) (name : String) : Option (List Value) :=
  (df.cols.findIdx? (· = name)).map fun i => df.rows.map fun r => r.getD i Value.null

/-- Numeric view of a cell (pandas comparisons/aggregations skip NaN,
modelled by `none`). -/
def Value.num? : Value → Option Rat
  | .int i => some (i : Rat)
  | .rat q => some q
  | _ => none

/-- Date view of a cell. -/
def Value.date? : Value → Option Int
  | .date d => some d
  | _ => none

/-- All integers from a to b inclusive (empty when a > b). -/
def intRangeIncl (a b : Int) : List Int :=
  (List.range (b + 1 - a).toNat).map fun (i : Nat) => a + (i : Int)

/-- `date_range(start, end)` from src/utils/dates.py: each day between start
and end inclusive. -/
def date_range (s e : Int) : List Int := intRangeIncl s e

/-- `coverage_ratio` from src/utils/dates.py: |expected ∩ observed| divided
by |expected|, and 0.0 when the expected set is empty. -/
def coverage_ratio (dates : List Int) (s e : Int) : Rat :=
  let expected : Finset Int := (date_range s e).toFinset
  let observed : Finset Int := dates.toFinset
  if expected = ∅ then 0
  else ((expected ∩ observed).card : Rat) / ((expected.card : Nat) : Rat)

/-- Check status from src/validation/checks.py (`Status` literal type). -/
inductive Status where
  | pass
  | warn
  | fail
deriving DecidableEq

/-- Payload carried in a CheckResult's `value`/`expected` fields (the Python
code stores heterogeneous values there). -/
inductive CheckVal where
  | none
  | num (q : Rat)
  | int (i : Int)
  | str (s : String)
  | strs (l : List String)
  | belowAbove (b a : Int)
deriving DecidableEq

/-- `CheckResult` from src/validation/checks.py. -/
structure CheckResult where
  name : String
  status : Status
  message : String
  value : CheckVal := .none
  expected : CheckVal := .none
deriving DecidableEq

/-- `_schema_check` from src/validation/checks.py. -/
def _schema_check (name : String) (df : Frame) (required : List String) : CheckResult :=
  let missing := required.filter fun c => ¬ df.cols.contains c
  { name := name,
    status := if missing.isEmpty then .pass else .fail,
    message := if missing.isEmpty then "Schema OK"
               else "Missing columns: " ++ String.intercalate ", " missing,
    value := .strs df.cols,
    expected := .strs required }

/-- Number of null cells (`df.isna().sum().sum()`). -/
def Frame.nullCount (df : Frame) : Nat :=
  (df.rows.map fun r => (r.filter (· = Value.null)).length).sum

/-- The null ratio of `_null_check`: nulls / (size, or 1 when empty). -/
def nullRatio (df : Frame) : Rat :=
  let total : Nat := if df.isEmpty then 1 else df.size
  ((df.nullCount : Nat) : Rat) / ((total : Nat) : Rat)

/-- `_null_check` from src/validation/checks.py.  (The percentage rendered
into the message string is presentation only and is not reproduced.) -/
def _null_check (name : String) (df : Frame) : CheckResult :=
  let ratio := nullRatio df
  { name := name,
    status := if ratio = 0 then .pass else if ratio < 5 / 100 then .warn else .fail,
    message := "Null ratio",
    value := .num ratio,
    expected := .str "<5%" }

/-- Key of a row on a column subset.  NOTE: pandas `df.duplicated(subset)`
raises KeyError when a subset column is missing; this model instead keys
such a column as `none`.  The battery only calls the duplicate check with
its canonical key columns, and every concrete input a theorem below
evaluates carries those columns, so the `none` branch is never exercised
where it would diverge from the raising behaviour. -/
def rowKey (df : Frame) (subset : List String) (r : List Value) : List (Option Value) :=
  subset.map fun c => (df.cols.findIdx? (· = c)).map fun i => r.getD i Value.null

/-- `df.duplicated(subset=...).sum()` with pandas' default keep-first:
total rows minus the number of distinct keys. -/
def dupCount (df : Frame) (subset : List String) : Nat :=
  df.rows.length - ((df.rows.map (rowKey df subset)).dedup).length

/-- `_duplicate_check` from src/validation/checks.py. -/
def _duplicate_check (name : String) (df : Frame) (subset : List String) : CheckResult :=
  let d := dupCount df subset
  { name := name,
    status := if d = 0 then .pass else .fail,
    message := if d = 0 then "No duplicates" else "duplicate rows",
    value := .int d,
    expected := .int 0 }

/-- `_value_range_check` from src/validation/checks.py, on a column's cells.
(The band rendered into the expected string is presentation only.) -/
def _value_range_check (name : String) (series : List Value) (minimum maximum : Rat) :
    CheckResult :=
  if series.isEmpty then
    { name := name, status := .warn, message := "Series empty",
      value := .none, expected := .str "range" }
  else
    let nums := series.filterMap Value.num?
    let below := (nums.filter fun q => q < minimum).length
    let above := (nums.filter fun q => maximum < q).length
    let total := series.length
    if below = 0 ∧ above = 0 then
      { name := name, status := .pass, message := "Within expected range",
        value := .belowAbove below above, expected := .str "range" }
    else if (((below + above : Nat) : Rat) / ((total : Nat) : Rat)) < 5 / 100 then
      { name := name, status := .warn, message := "values out of range",
        value := .belowAbove below above, expected := .str "range" }
    else
      { name := name, status := .fail, message := "values out of range",
        value := .belowAbove below above, expected := .str "range" }

/-- The date cells of a frame's `date` column, as a finite set
(`set(pd.to_datetime(df["date"]).dt.date)`). -/
def Frame.dateSet (df : Frame) : Finset Int :=
  (((df.col "date").getD []).filterMap Value.date?).toFinset

/-- `_coverage_check` from src/validation/checks.py. -/
def _coverage_check (name : String) (df : Frame) (s e : Int) : CheckResult :=
  if df.isEmpty ∨ "date" ∉ df.cols then
    { name := name, status := .fail, message := "Missing date coverage",
      value := .num 0, expected := .num 1 }
  else
    let ratio := coverage_ratio (((df.col "date").getD []).filterMap Value.date?) s e
    { name := name,
      status := if 95 / 100 ≤ ratio then .pass
                else if 75 / 100 ≤ ratio then .warn else .fail,
      message := "Coverage",
      value := .num ratio,
      expected := .str ">=95%" }

/-- The aggregate bundle handed to `run_all_checks` (the `datasets` dict with
its `.get(..., pd.DataFrame())` defaults already applied). -/
structure Datasets where
  otp : Frame := emptyFrame
  otp_daily : Frame := emptyFrame
  metar_daily : Frame := emptyFrame
  tsa_daily : Frame := emptyFrame

/-- Canonical flight-ops daily-aggregate columns. -/
def otpDailyCols : List String := ["date", "airport", "dep_count", "arr_count", "movements"]

/-- Canonical weather daily-aggregate columns. -/
def metarDailyCols : List String :=
  ["date", "airport", "wind_mean", "gust_max", "vis_min", "ceiling_min",
   "precip_any", "ts_any", "ifr_any"]

/-- The cross-source overlap ratio computed inside `run_all_checks`: the
dates shared by all three daily aggregates (NOT intersected with the
window), divided by the number of expected window dates. -/
def overlapRatio (ds : Datasets) (s e : Int) : Rat :=
  let dates := ds.otp_daily.dateSet ∩ ds.metar_daily.dateSet ∩ ds.tsa_daily.dateSet
  let expected := (date_range s e).toFinset
  if expected = ∅ then 0
  else ((dates.card : Nat) : Rat) / ((expected.card : Nat) : Rat)

/-- The cross-source overlap CheckResult built inside `run_all_checks`. -/
def overlapCheck (ds : Datasets) (s e : Int) : CheckResult :=
  let ratio := overlapRatio ds s e
  { name := "Cross-dataset date overlap",
    status := if 4 / 5 ≤ ratio then .pass else if 1 / 2 ≤ ratio then .warn else .fail,
    message := "Shared coverage",
    value := .num ratio,
    expected := .str ">=80%" }

/-- `run_all_checks` from src/validation/checks.py, with the window already
parsed to day numbers. -/
def run_all_checks (ds : Datasets) (s e : Int) : List CheckResult :=
  [_schema_check "OTP schema" ds.otp ["FlightDate", "Origin", "Dest", "Cancelled", "Diverted"],
   _schema_check "OTP daily schema" ds.otp_daily otpDailyCols,
   _schema_check "METAR daily schema" ds.metar_daily metarDailyCols,
   _schema_check "TSA schema" ds.tsa_daily ["date", "tsa_travelers"],
   _null_check "OTP nulls" ds.otp,
   _null_check "METAR nulls" ds.metar_daily,
   _null_check "TSA nulls" ds.tsa_daily]
  ++ (if ds.otp_daily.isEmpty then []
      else [_duplicate_check "OTP daily duplicates" ds.otp_daily ["date", "airport"]])
  ++ (if ds.metar_daily.isEmpty then []
      else [_duplicate_check "METAR daily duplicates" ds.metar_daily ["date", "airport"]])
  ++ (if ds.tsa_daily.isEmpty then []
      else [_duplicate_check "TSA duplicates" ds.tsa_daily ["date"]])
  ++ [_coverage_check "OTP coverage" ds.otp_daily s e,
      _coverage_check "METAR coverage" ds.metar_daily s e,
      _coverage_check "TSA coverage" ds.tsa_daily s e]
  ++ (if "movements" ∈ ds.otp_daily.cols then
        [_value_range_check "Daily movements" ((ds.otp_daily.col "movements").getD []) 0 3000]
      else [])
  ++ (if "wind_mean" ∈ ds.metar_daily.cols then
        [_value_range_check "Wind mean" ((ds.metar_daily.col "wind_mean").getD []) 0 150]
      else [])
  ++ (if "gust_max" ∈ ds.metar_daily.cols then
        [_value_range_check "Wind gust" ((ds.metar_daily.col "gust_max").getD []) 0 200]
      else [])
  ++ (if "vis_min" ∈ ds.metar_daily.cols then
        [_value_range_check "Visibility" ((ds.metar_daily.col "vis_min").getD []) 0 15]
      else [])
  ++ (if "ceiling_min" ∈ ds.metar_daily.cols then
        [_value_range_check "Ceiling" ((ds.metar_daily.col "ceiling_min").getD []) 0 20000]
      else [])
  ++ (if "tsa_travelers" ∈ ds.tsa_daily.cols then
        [_value_range_check "TSA travelers" ((ds.tsa_daily.col "tsa_travelers").getD []) 1000 4000000]
      else [])
  ++ (if ¬ ds.otp_daily.isEmpty ∧ ¬ ds.metar_daily.isEmpty ∧ ¬ ds.tsa_daily.isEmpty then
        [overlapCheck ds s e]
      else [])

/-! ### Ingest layer: RNG model, synthetic generators, fetchers -/

/-- Stand-in model of numpy's seeded generator `np.random.default_rng`
(PCG64 lives outside this repository): a 64-bit congruential state.  Only
its determinism as a function of the seed matters to the claims. -/
structure Rng where
  state : Nat
deriving DecidableEq

/-- `np.random.default_rng(seed)` (model). -/
def Rng.ofSeed (seed : Nat) : Rng :=
  ⟨(2862933555777941757 * seed + 3037000493) % 2 ^ 64⟩

/-- One raw 64-bit step of the generator (model). -/
def Rng.next (g : Rng) : Nat × Rng :=
  let s := (6364136223846793005 * g.state + 1442695040888963407) % 2 ^ 64
  (s, ⟨s⟩)

/-- `rng.random()`: a uniform draw in [0,1) (model). -/
def Rng.unit (g : Rng) : Rat × Rng :=
  let (n, g1) := g.next
  (((n % 2 ^ 53 : Nat) : Rat) / ((2 ^ 53 : Nat) : Rat), g1)

/-- `rng.normal(mu, sigma)`: one draw (model stand-in, affine in a unit
draw; only determinism in the state matters). -/
def Rng.normal (mu sigma : Rat) (g : Rng) : Rat × Rng :=
  let (u, g1) := g.unit
  (mu + sigma * (2 * u - 1), g1)

/-- Walk a cumulative-probability table (helper for `rng.choice`). -/
def pickCum (xs : List α) (ps : List Rat) (u : Rat) (d : α) : α :=
  match xs, ps with
  | [], _ => d
  | x :: _, [] => x
  | x :: rest, p :: prest => if u < p then x else pickCum rest prest (u - p) d

/-- `rng.choice(xs, p=ps)`: categorical draw (model). -/
def Rng.choice (xs : List α) (ps : List Rat) (d : α) (g : Rng) : α × Rng :=
  let (u, g1) := g.unit
  (pickCum xs ps u d, g1)

/-- Map over a list threading the generator state. -/
def mapRng (f : α → Rng → β × Rng) : List α → Rng → List β × Rng
  | [], g => ([], g)
  | x :: xs, g =>
    let (y, g1) := f x g
    let (ys, g2) := mapRng f xs g1
    (y :: ys, g2)

/-- Stand-in model of the Python builtin string hash (`hash(airport)`;
CPython's salted siphash is fixed within one interpreter process). -/
def pyHash (station : String) : Nat :=
  station.foldl (fun h c => (h * 31 + c.toNat) % 2 ^ 61) 7

/-- `abs(hash(airport)) % (2**32)`: the per-entity generator seed. -/
def seedOf (airport : String) : Nat := pyHash airport % 2 ^ 32

/-- Python `int(...)` on a float: truncation toward zero. -/
def truncInt (q : Rat) : Int := if q < 0 then -(Rat.floor (-q)) else Rat.floor q

/-- `_icao_to_iata` from src/ingest/otp.py. -/
def _icao_to_iata (airport : String) : String :=
  if airport.length = 4 && airport.startsWith "K" then airport.drop 1 else airport

/-- Raw OTP columns as produced by `_download_sample`/`_synthetic_rows`. -/
def otpRawCols : List String := ["FlightDate", "Origin", "Dest", "Cancelled", "Diverted"]

/-- One synthetic flight record of `_synthetic_rows` (two unit draws: the
cancellation and diversion tests). -/
def flightRecord (day : Int) (origin dest : String) (cancelRate divertRate : Rat)
    (g : Rng) : List Value × Rng :=
  let (u1, g1) := g.unit
  let (u2, g2) := g1.unit
  ([Value.date day, Value.str origin, Value.str dest,
    Value.int (if u1 < cancelRate then 1 else 0),
    Value.int (if u2 < divertRate then 1 else 0)], g2)

/-- The synthetic records of `_synthetic_rows` for one airport and one day:
departure/arrival counts, per-day rates, then one record per movement. -/
def dayRecords (airport : String) (day : Int) (g : Rng) : List (List Value) × Rng :=
  let (dRaw, g1) := Rng.normal 350 40 g
  let (aRaw, g2) := Rng.normal 340 40 g1
  let departures := max (truncInt dRaw) 50
  let arrivals := max (truncInt aRaw) 50
  let (cu, g3) := g2.unit
  let cancelRate := 2 / 100 + 1 / 100 * cu
  let (du, g4) := g3.unit
  let divertRate := 5 / 1000 * du
  let iata := _icao_to_iata airport
  let (deps, g5) :=
    mapRng (fun _ g => flightRecord day iata "ZZZ" cancelRate divertRate g)
      (List.range departures.toNat) g4
  let (arrs, g6) :=
    mapRng (fun _ g => flightRecord day "ZZZ" iata cancelRate divertRate g)
      (List.range arrivals.toNat) g5
  (deps ++ arrs, g6)

/-- All synthetic records of `_synthetic_rows` for one airport (fresh
generator seeded from the airport, then one pass over the window days). -/
def airportRecords (airport : String) (s e : Int) : List (List Value) :=
  (mapRng (fun day g => dayRecords airport day g) (date_range s e)
    (Rng.ofSeed (seedOf airport))).1.flatten

/-- `_synthetic_rows` from src/ingest/otp.py.
`pd.DataFrame.from_records([])` yields a frame with no columns. -/
def _synthetic_rows (airports : List String) (s e : Int) : Frame :=
  let records := (airports.map fun a => airportRecords a s e).flatten
  if records.isEmpty then ⟨[], []⟩ else ⟨otpRawCols, records⟩

/-- Raw METAR columns as produced by `_synthetic_metar`. -/
def metarRawCols : List String :=
  ["station_id", "observation_time", "wind_speed_kt", "wind_gust_kt",
   "visibility_statute_mi", "ceiling_ft_agl", "wx_string", "flight_category"]

/-- One hourly synthetic METAR record (draw order follows the source's dict
literal). -/
def metarRecord (airport : String) (hour : Int) (g : Rng) : List Value × Rng :=
  let (w, g1) := Rng.normal 8 4 g
  let (gu, g2) := Rng.normal 18 6 g1
  let (vis, g3) := Rng.normal 8 2 g2
  let (ce, g4) := Rng.normal 4000 800 g3
  let (wx, g5) := Rng.choice ["", "RA", "TSRA", "BR"] [6/10, 2/10, 1/10, 1/10] "" g4
  let (cat, g6) := Rng.choice ["VFR", "MVFR", "IFR", "LIFR"] [6/10, 2/10, 15/100, 5/100] "" g5
  ([Value.str airport, Value.time hour,
    Value.rat (max 0 w), Value.rat (max 0 gu),
    Value.rat (max (1/4) vis), Value.rat (max 100 ce),
    Value.str wx, Value.str cat], g6)

/-- `_synthetic_metar` from src/ingest/metar.py: one record per hour from
the start of the window through one trailing day, generator seeded from the
station hash. -/
def _synthetic_metar (airport : String) (s e : Int) : Frame :=
  let hours := intRangeIncl (24 * s) (24 * (e + 1))
  let records :=
    (mapRng (fun h g => metarRecord airport h g) hours (Rng.ofSeed (seedOf airport))).1
  if records.isEmpty then ⟨[], []⟩ else ⟨metarRawCols, records⟩

/-- `_synthetic_tsa` from src/ingest/tsa.py: one value per window day, fixed
seed 42, floored at 100000 then cast to int. -/
def _synthetic_tsa (s e : Int) : Frame :=
  let dates := date_range s e
  let values :=
    (mapRng (fun _ g =>
      let (x, g1) := Rng.normal 2200000 250000 g
      (truncInt (max 100000 x), g1)) dates (Rng.ofSeed 42)).1
  ⟨["date", "tsa_travelers"],
   (dates.zip values).map fun dv => [Value.date dv.1, Value.int dv.2]⟩

/-- Turn an optional value into an Except (models a raising Python call). -/
def liftOpt (o : Option α) (msg : String) : Except String α :=
  match o with
  | some a => .ok a
  | none => .error msg

/-- `df[name]` as a raising lookup (KeyError when the column is absent). -/
def Frame.colE (df : Frame) (name : String) : Except String (List Value) :=
  liftOpt (df.col name) ("KeyError: " ++ name)

/-- The primary path of `fetch_otp` from src/ingest/otp.py, acting on the
outcome `primary` of `_download_sample()` (a parsed frame, or the network /
parse exception it raised): filter rows touching a requested airport, then
filter to the window, and treat an empty result as an error. -/
def fetchOtpPrimary (primary : Except String Frame) (airports : List String)
    (s e : Int) : Except String Frame := do
  let df ← primary
  let iO ← liftOpt (df.cols.findIdx? (· = "Origin")) "KeyError: Origin"
  let iD ← liftOpt (df.cols.findIdx? (· = "Dest")) "KeyError: Dest"
  let iF ← liftOpt (df.cols.findIdx? (· = "FlightDate")) "KeyError: FlightDate"
  let iatas := airports.map _icao_to_iata
  let masked := df.rows.filter fun r =>
    (match r.getD iO Value.null with
     | .str o => iatas.contains o
     | _ => false) ||
    (match r.getD iD Value.null with
     | .str d => iatas.contains d
     | _ => false)
  let kept := masked.filter fun r =>
    match r.getD iF Value.null with
    | .date d => decide (s ≤ d) && decide (d ≤ e)
    | _ => false
  if kept.isEmpty then
    throw "No sample data available for requested airports; using synthetic data"
  return ⟨df.cols, kept⟩

/-- `fetch_otp` from src/ingest/otp.py: the try/except around the primary
path, falling back to `_synthetic_rows`. -/
def fetch_otp (primary : Except String Frame) (airports : List String) (s e : Int) : Frame :=
  match fetchOtpPrimary primary airports s e with
  | .ok f => f
  | .error _ => _synthetic_rows airports s e

/-- `_download_metar` from src/ingest/metar.py, acting on the outcome `raw`
of the HTTP CSV request: an empty body is raised as an error. -/
def _download_metar (raw : Except String Frame) : Except String Frame := do
  let data ← raw
  if data.isEmpty then
    throw "No METAR data returned"
  return data

/-- `fetch_metar` from src/ingest/metar.py: the try/except around
`_download_metar`, falling back to `_synthetic_metar`. -/
def fetch_metar (raw : Except String Frame) (airport : String) (s e : Int) : Frame :=
  match _download_metar raw with
  | .ok d => d
  | .error _ => _synthetic_metar airport s e

/-- ASCII lowercasing of a column name (models Python str.lower for the
ASCII names used by this pipeline). -/
def asciiLower (s : String) : String :=
  ⟨s.toList.map fun c => if 65 ≤ c.toNat ∧ c.toNat ≤ 90 then Char.ofNat (c.toNat + 32) else c⟩

/-- Whitespace stripping of a column name (models Python str.strip). -/
def asciiStrip (s : String) : String :=
  ⟨((s.toList.dropWhile fun c => c == ' ' || c == '\t' || c == '\n' || c == '\r').reverse.dropWhile
      fun c => c == ' ' || c == '\t' || c == '\n' || c == '\r').reverse⟩

/-- ASCII uppercasing (models Python str.upper / case-insensitive regex
matching). -/
def asciiUpper (s : String) : String :=
  ⟨s.toList.map fun c => if 97 ≤ c.toNat ∧ c.toNat ≤ 122 then Char.ofNat (c.toNat - 32) else c⟩

/-- The column renames of `fetch_tsa`: strip+lowercase, then the traveler
alias table. -/
def tsaRenamedCols (cols : List String) : List String :=
  let lowered := cols.map fun c => asciiLower (asciiStrip c)
  if lowered.contains "travelers" then
    lowered.map fun c => if c = "travelers" then "tsa_travelers" else c
  else if lowered.contains "tsa travel numbers" then
    lowered.map fun c => if c = "tsa travel numbers" then "tsa_travelers" else c
  else lowered

/-- The primary path of `fetch_tsa` from src/ingest/tsa.py, acting on the
outcome `raw` of `_download_csv()`: normalize and rename columns, require a
date column, project onto [date, tsa_travelers] (KeyError when absent),
filter to the window, and treat an empty result as an error. -/
def fetchTsaPrimary (raw : Except String Frame) (s e : Int) : Except String Frame := do
  let df0 ← raw
  let cols := tsaRenamedCols df0.cols
  if ¬ (df0.cols.map fun c => asciiLower (asciiStrip c)).contains "date" then
    throw "TSA CSV missing date column"
  let df : Frame := ⟨cols, df0.rows⟩
  let iDate ← liftOpt (cols.findIdx? (· = "date")) "KeyError: date"
  let dcol := df.rows.map fun r => r.getD iDate Value.null
  let _ ← liftOpt (dcol.mapM Value.date?) "to_datetime failed"
  let iTrav ← liftOpt (cols.findIdx? (· = "tsa_travelers")) "KeyError: tsa_travelers"
  let proj := df.rows.map fun r => [r.getD iDate Value.null, r.getD iTrav Value.null]
  let kept := proj.filter fun r =>
    match r.getD 0 Value.null with
    | .date d => decide (s ≤ d) && decide (d ≤ e)
    | _ => false
  if kept.isEmpty then
    throw "No TSA data for requested window"
  return ⟨["date", "tsa_travelers"], kept⟩

/-- `fetch_tsa` from src/ingest/tsa.py: the try/except around the primary
path, falling back to `_synthetic_tsa`. -/
def fetch_tsa (raw : Except String Frame) (s e : Int) : Frame :=
  match fetchTsaPrimary raw s e with
  | .ok f => f
  | .error _ => _synthetic_tsa s e

/-! ### Aggregation transforms -/

/-- Substring containment (Python's `needle in hay` on strings). -/
def strContains (hay needle : String) : Bool :=
  hay.toList.tails.any fun t => needle.toList.isPrefixOf t

/-- `build_daily_movements` from src/ingest/otp.py: daily departure/arrival
counts for one airport, optionally excluding cancelled/diverted legs.
Group keys come out sorted by date, as pandas sorts groupby keys. -/
def build_daily_movements (df : Frame) (airport : String) (include_canceled : Bool) :
    Except String Frame := do
  if df.isEmpty then
    return ⟨otpDailyCols, []⟩
  let iF ← liftOpt (df.cols.findIdx? (· = "FlightDate")) "KeyError: FlightDate"
  let _ ← liftOpt ((df.rows.map fun r => r.getD iF Value.null).mapM Value.date?)
    "to_datetime failed"
  let iata := _icao_to_iata airport
  let rows ←
    if include_canceled then pure df.rows
    else do
      let iC ← liftOpt (df.cols.findIdx? (· = "Cancelled")) "KeyError: Cancelled"
      let iV ← liftOpt (df.cols.findIdx? (· = "Diverted")) "KeyError: Diverted"
      pure (df.rows.filter fun r =>
        decide (r.getD iC Value.null = Value.int 0) &&
        decide (r.getD iV Value.null = Value.int 0))
  let iO ← liftOpt (df.cols.findIdx? (· = "Origin")) "KeyError: Origin"
  let iD ← liftOpt (df.cols.findIdx? (· = "Dest")) "KeyError: Dest"
  let depDates := (rows.filter fun r => decide (r.getD iO Value.null = Value.str iata)).filterMap
    fun r => (r.getD iF Value.null).date?
  let arrDates := (rows.filter fun r => decide (r.getD iD Value.null = Value.str iata)).filterMap
    fun r => (r.getD iF Value.null).date?
  let allDates := List.insertionSort (· ≤ ·) (depDates ++ arrDates).dedup
  let outRows := allDates.map fun d =>
    let dep := depDates.count d
    let arr := arrDates.count d
    [Value.date d, Value.str airport, Value.int dep, Value.int arr, Value.int (dep + arr)]
  return ⟨otpDailyCols, outRows⟩

/-- A column's cells, or a broadcast scalar default (`df.get(name, default)`). -/
def getColD (df : Frame) (name : String) (d : Value) : List Value :=
  (df.col name).getD (df.rows.map fun _ => d)

/-- Append a column. -/
def addCol (df : Frame) (name : String) (vals : List Value) : Frame :=
  ⟨df.cols ++ [name], (df.rows.zip vals).map fun rv => rv.1 ++ [rv.2]⟩

/-- Append a column unless one of that name exists. -/
def addColIfMissing (df : Frame) (name : String) (vals : List Value) : Frame :=
  if df.cols.contains name then df else addCol df name vals

/-- Per-row minimum over a column selection, skipping non-numeric cells
(`df[cols].min(axis=1)`). -/
def rowMin (df : Frame) (colsSel : List String) (r : List Value) : Value :=
  let vals := colsSel.filterMap fun c =>
    (df.cols.findIdx? (· = c)).bind fun i => (r.getD i Value.null).num?
  match vals with
  | [] => Value.null
  | v :: rest => Value.rat (rest.foldl min v)

/-- `_normalize_metar` from src/ingest/metar.py: lowercase the column names
and fill the expected feature columns from alternates or defaults. -/
def _normalize_metar (df : Frame) : Frame :=
  let df : Frame := ⟨df.cols.map asciiLower, df.rows⟩
  let df := addColIfMissing df "wind_speed_kt" (getColD df "wind_speed" (Value.int 0))
  let df := addColIfMissing df "wind_gust_kt" (getColD df "wind_gust" (Value.int 0))
  let df := addColIfMissing df "visibility_statute_mi" (getColD df "visibility" (Value.int 0))
  let df :=
    if df.cols.contains "ceiling_ft_agl" then df
    else
      let ceilingCols := df.cols.filter fun c => strContains c "ceiling"
      if ceilingCols.isEmpty then addCol df "ceiling_ft_agl" (df.rows.map fun _ => Value.null)
      else addCol df "ceiling_ft_agl" (df.rows.map fun r => rowMin df ceilingCols r)
  let df := addColIfMissing df "wx_string" (df.rows.map fun _ => Value.str "")
  let df := addColIfMissing df "flight_category" (df.rows.map fun _ => Value.str "")
  if ¬ df.cols.contains "station_id" && df.cols.contains "station" then
    addCol df "station_id" (getColD df "station" Value.null)
  else df

/-- Observation timestamp to calendar day (`pd.to_datetime(...).dt.date`). -/
def Value.obsDate? : Value → Option Int
  | .time t => some (Int.fdiv t 24)
  | .date d => some d
  | _ => none

/-- Case-insensitive test against an alternation of patterns
(`s.str.contains("RA|SN|DZ", case=False, na=False)` per cell). -/
def cellMatches (pats : List String) (v : Value) : Bool :=
  match v with
  | .str s => pats.any fun p => strContains (asciiUpper s) p
  | _ => false

/-- `daily_metar_features` from src/ingest/metar.py: per (date, station)
means/extremes and weather flags.  Group keys are kept in first-occurrence
order (pandas sorts them; no stated property depends on that order). -/
def daily_metar_features (metar_df : Frame) : Except String Frame := do
  if metar_df.isEmpty then
    return ⟨metarDailyCols, []⟩
  let df := _normalize_metar metar_df
  if ¬ df.cols.contains "observation_time" then
    throw "METAR data is missing observation_time column"
  let iT ← liftOpt (df.cols.findIdx? (· = "observation_time")) "KeyError: observation_time"
  let dates ← liftOpt ((df.rows.map fun r => r.getD iT Value.null).mapM Value.obsDate?)
    "to_datetime failed"
  let airports := getColD df "station_id" (Value.str "")
  let iW ← liftOpt (df.cols.findIdx? (· = "wind_speed_kt")) "KeyError: wind_speed_kt"
  let iG ← liftOpt (df.cols.findIdx? (· = "wind_gust_kt")) "KeyError: wind_gust_kt"
  let iV ← liftOpt (df.cols.findIdx? (· = "visibility_statute_mi")) "KeyError: visibility_statute_mi"
  let iC ← liftOpt (df.cols.findIdx? (· = "ceiling_ft_agl")) "KeyError: ceiling_ft_agl"
  let iX ← liftOpt (df.cols.findIdx? (· = "wx_string")) "KeyError: wx_string"
  let iFC ← liftOpt (df.cols.findIdx? (· = "flight_category")) "KeyError: flight_category"
  let recs := dates.zip (airports.zip df.rows)
  let keys := (recs.map fun r => (r.1, r.2.1)).dedup
  let outRows := keys.map fun k =>
    let rowsOf := (recs.filter fun r => decide ((r.1, r.2.1) = k)).map fun r => r.2.2
    let ws := rowsOf.filterMap fun r => (r.getD iW Value.null).num?
    let windMean : Value :=
      match ws with
      | [] => Value.null
      | _ => Value.rat (ws.sum / ((ws.length : Nat) : Rat))
    let gustMax : Value :=
      match rowsOf.filterMap fun r => (r.getD iG Value.null).num? with
      | [] => Value.null
      | v :: rest => Value.rat (rest.foldl max v)
    let visMin : Value :=
      match rowsOf.filterMap fun r => (r.getD iV Value.null).num? with
      | [] => Value.null
      | v :: rest => Value.rat (rest.foldl min v)
    let ceilMin : Value :=
      match rowsOf.filterMap fun r => (r.getD iC Value.null).num? with
      | [] => Value.null
      | v :: rest => Value.rat (rest.foldl min v)
    let precip := rowsOf.any fun r => cellMatches ["RA", "SN", "DZ"] (r.getD iX Value.null)
    let ts := rowsOf.any fun r => cellMatches ["TS"] (r.getD iX Value.null)
    let ifr := rowsOf.any fun r =>
      decide (r.getD iFC Value.null = Value.str "IFR") ||
      decide (r.getD iFC Value.null = Value.str "LIFR")
    [Value.date k.1, k.2, windMean, gustMax, visMin, ceilMin,
     Value.int (if precip then 1 else 0), Value.int (if ts then 1 else 0),
     Value.int (if ifr then 1 else 0)]
  return ⟨metarDailyCols, outRows⟩

/-! ### Manifest content hash -/

/-- Injective integer code. -/
def intCode (i : Int) : Nat := if i < 0 then 2 * i.natAbs + 1 else 2 * i.natAbs

/-- Injective string code. -/
def strCode (s : String) : Nat :=
  s.foldl (fun h c => h * 1114112 + c.toNat + 1) 0

/-- Injective-by-construction cell code feeding the row hash. -/
def valueCode : Value → Nat
  | .null => 0
  | .int i => 1 + 6 * intCode i
  | .rat q => 2 + 6 * Nat.pair (intCode q.num) q.den
  | .str s => 3 + 6 * strCode s
  | .date d => 4 + 6 * intCode d
  | .time t => 5 + 6 * intCode t

/-- Stand-in model of the per-row 64-bit hash of
`pd.util.hash_pandas_object(df, index=False)` (library outside the
repository). -/
def rowHash (r : List Value) : Nat :=
  r.foldl (fun h v => (h * 1099511628211 + valueCode v) % 2 ^ 64) 14695981039346656037

/-- Stand-in model of `hashlib.sha256(bytes).hexdigest()` applied to the
concatenated row-hash bytes; SHA-256 collision resistance is modelled as
exact injectivity on the row-hash sequence. -/
def sha256Hex (hs : List Nat) : String :=
  String.intercalate "-" (hs.map toString)

/-- `_hash_dataframe` from src/app/pages/1_Admin_Ingest.py: empty-string
sentinel for an empty frame, else the digest of the per-row hashes in row
order. -/
def _hash_dataframe (df : Frame) : String :=
  if df.isEmpty then "" else sha256Hex (df.rows.map rowHash)

/-! ### Spec-side reading of the overlap ratio, and concrete frames used by
counterexamples -/

/-- The cross-source overlap ratio as the claim words it: the fraction of
calendar dates in [start, end] on which all three daily aggregates report
data.  Kept beside `overlapRatio` (the code's computation) for comparison. -/
def specOverlapFraction (ds : Datasets) (s e : Int) : Rat :=
  let shared := ds.otp_daily.dateSet ∩ ds.metar_daily.dateSet ∩ ds.tsa_daily.dateSet
  let window := (date_range s e).toFinset
  ((window ∩ shared).card : Rat) / ((window.card : Nat) : Rat)

/-- A canonical one-row flight-ops daily aggregate dated day 2 (all key
columns present, clean cells, so the whole real check battery — schema,
null, duplicate, coverage, value-range — runs without raising). -/
def otpDailyDayTwo : Frame :=
  ⟨["date", "airport", "dep_count", "arr_count", "movements"],
   [[Value.date 2, Value.str "ATL", Value.int 1, Value.int 1, Value.int 2]]⟩

/-- A canonical one-row weather daily aggregate dated day 2. -/
def metarDailyDayTwo : Frame :=
  ⟨["date", "airport", "wind_mean", "gust_max", "vis_min", "ceiling_min",
    "precip_any", "ts_any", "ifr_any"],
   [[Value.date 2, Value.str "ATL", Value.rat 5, Value.rat 10, Value.rat 10,
     Value.rat 5000, Value.int 0, Value.int 0, Value.int 0]]⟩

/-- A canonical one-row throughput daily aggregate dated day 2. -/
def tsaDailyDayTwo : Frame :=
  ⟨["date", "tsa_travelers"], [[Value.date 2, Value.int 100000]]⟩

/-- Three populated canonical aggregates (every column a duplicate,
coverage, or value-range check keys on is present, with in-band values)
sharing only day 2, which lies outside the one-day window [1, 1]. -/
def dsOutside : Datasets :=
  { otp_daily := otpDailyDayTwo, metar_daily := metarDailyDayTwo,
    tsa_daily := tsaDailyDayTwo }

/-- An empty flight-ops daily aggregate that still carries the canonical
columns (exactly the shape `build_daily_movements` returns on empty input). -/
def emptyOtpDaily : Frame := ⟨otpDailyCols, []⟩

/-- A dataset bundle whose flight-ops daily aggregate is empty but
columned. -/
def dsEmptyCols : Datasets := { otp_daily := emptyOtpDaily }

/-- Two-row frame and its row-swapped permutation, plus a renamed-column
variant with identical rows. -/
def hashFrameA : Frame := ⟨["x"], [[Value.int 1], [Value.int 2]]⟩

/-- Row-swapped permutation of `hashFrameA`. -/
def hashFrameB : Frame := ⟨["x"], [[Value.int 2], [Value.int 1]]⟩

/-- Same rows as `hashFrameA` under a different column name. -/
def hashFrameC : Frame := ⟨["y"], [[Value.int 1], [Value.int 2]]⟩

/-! ### Helper lemmas -/

theorem mem_date_range {s e d : Int} : d ∈ date_range s e ↔ s ≤ d ∧ d ≤ e := by
  simp only [date_range, intRangeIncl, List.mem_map, List.mem_range]
  constructor
  · rintro ⟨i, hi, rfl⟩
    omega
  · intro hd
    exact ⟨(d - s).toNat, by omega, by omega⟩

theorem date_range_toFinset (s e : Int) : (date_range s e).toFinset = Finset.Icc s e := by
  ext d
  simp [mem_date_range, Finset.mem_Icc]

theorem coverage_ratio_eq (dates : List Int) {s e : Int} (h : s ≤ e) :
    coverage_ratio dates s e =
      ((Finset.Icc s e ∩ dates.toFinset).card : Rat) / (((Finset.Icc s e).card : Nat) : Rat) := by
  simp only [coverage_ratio, date_range_toFinset]
  rw [if_neg (Finset.nonempty_Icc.mpr h).ne_empty]

theorem coverage_ratio_nil (s e : Int) : coverage_ratio [] s e = 0 := by
  simp only [coverage_ratio]
  split <;> simp

theorem nullRatio_nonneg (df : Frame) : 0 ≤ nullRatio df := by
  simp only [nullRatio]
  positivity

/-! ### C4: monotonicity of the coverage ratio under window widening -/

/-- C4 (counterexample): with the single observed date 2, the narrow window
[1, 1] has coverage 0 while the widened window [1, 2] has coverage 1/2, so
widening the window can strictly increase the ratio — the claim as stated
is false. -/
theorem coverage_widening_counterexample :
    ¬ (coverage_ratio [2] 1 2 ≤ coverage_ratio [2] 1 1) := by
  have ha : coverage_ratio [2] 1 1 = 0 := by
    rw [coverage_ratio_eq [2] (le_refl 1)]
    have hint : Finset.Icc (1 : Int) 1 ∩ ([2] : List Int).toFinset = ∅ := by decide
    rw [hint]
    simp
  have hb : coverage_ratio [2] 1 2 = 1 / 2 := by
    rw [coverage_ratio_eq [2] (by norm_num : (1 : Int) ≤ 2)]
    have hint : (Finset.Icc (1 : Int) 2 ∩ ([2] : List Int).toFinset).card = 1 := by decide
    have hcard : (Finset.Icc (1 : Int) 2).card = 2 := by decide
    rw [hint, hcard]
    norm_num
  rw [ha, hb]
  norm_num

/-- C4 (amended): for a fixed set of observed dates all lying inside the
narrower window, widening the window (start no later, end no earlier) can
only decrease or hold the coverage ratio. -/
theorem coverage_ratio_window_monotone (obs : List Int) (s1 e1 s2 e2 : Int)
    (hs : s2 ≤ s1) (he : e1 ≤ e2) (hobs : ∀ d ∈ obs, s1 ≤ d ∧ d ≤ e1) :
    coverage_ratio obs s2 e2 ≤ coverage_ratio obs s1 e1 := by
  by_cases hnil : obs = []
  · subst hnil
    rw [coverage_ratio_nil, coverage_ratio_nil]
  · obtain ⟨d, hd⟩ := List.exists_mem_of_ne_nil obs hnil
    obtain ⟨hd1, hd2⟩ := hobs d hd
    have h11 : s1 ≤ e1 := hd1.trans hd2
    have h22 : s2 ≤ e2 := (hs.trans h11).trans he
    rw [coverage_ratio_eq obs h11, coverage_ratio_eq obs h22]
    have hsub : obs.toFinset ⊆ Finset.Icc s1 e1 := by
      intro x hx
      exact Finset.mem_Icc.mpr (hobs x (List.mem_toFinset.mp hx))
    have h12 : Finset.Icc s1 e1 ⊆ Finset.Icc s2 e2 := Finset.Icc_subset_Icc hs he
    rw [Finset.inter_eq_right.mpr hsub, Finset.inter_eq_right.mpr (hsub.trans h12)]
    apply div_le_div_of_nonneg_left
    · positivity
    · have hpos : 0 < (Finset.Icc s1 e1).card :=
        Finset.card_pos.mpr ⟨d, Finset.mem_Icc.mpr ⟨hd1, hd2⟩⟩
      exact_mod_cast hpos
    · exact_mod_cast Finset.card_le_card h12

/-- C4 (witness): the amended monotonicity at a concrete instance —
observed dates {2, 3} inside [2, 3], window widened to [1, 4]. -/
theorem coverage_ratio_window_monotone_witness :
    coverage_ratio [2, 3] 1 4 ≤ coverage_ratio [2, 3] 2 3 :=
  coverage_ratio_window_monotone [2, 3] 2 3 1 4 (by decide) (by decide) (by decide)

/-! ### C5: the null-ratio check -/

/-- C5: `_null_check` records the null-cell ratio as its value and its
status is Pass exactly at ratio 0, Warn exactly on (0, 5%) and Fail exactly
at or above 5%; in particular a 4% ratio yields Warn. -/
theorem null_check_characterization (name : String) (df : Frame) :
    ((_null_check name df).value = .num (nullRatio df)) ∧
    ((_null_check name df).status = .pass ↔ nullRatio df = 0) ∧
    ((_null_check name df).status = .warn ↔ 0 < nullRatio df ∧ nullRatio df < 5 / 100) ∧
    ((_null_check name df).status = .fail ↔ 5 / 100 ≤ nullRatio df) := by
  have h0 : 0 ≤ nullRatio df := nullRatio_nonneg df
  have hst : (_null_check name df).status =
      (if nullRatio df = 0 then Status.pass
       else if nullRatio df < 5 / 100 then Status.warn else Status.fail) := rfl
  refine ⟨rfl, ?_, ?_, ?_⟩
  · rw [hst]
    split_ifs with h1 h2
    · simp [h1]
    · simp [h1]
    · simp [h1]
  · rw [hst]
    split_ifs with h1 h2
    · simp [h1]
    · simp [h2, lt_of_le_of_ne h0 (Ne.symm h1)]
    · simp [h2]
  · rw [hst]
    split_ifs with h1 h2
    · simp [h1]
    · simp [not_le.mpr h2]
    · simp [le_of_not_lt h2]

/-! ### C3: the coverage check -/

/-- C3: on an empty or date-less dataset `_coverage_check` fails outright
with value 0.0 and the missing-coverage message; otherwise its value is the
fraction of calendar dates of [start, end] present in the date column, with
Pass at or above 95%, Warn on [75%, 95%) and Fail below 75%. -/
theorem coverage_check_characterization (name : String) (df : Frame) (s e : Int)
    (h : s ≤ e) :
    (df.isEmpty = true ∨ "date" ∉ df.cols →
      _coverage_check name df s e =
        { name := name, status := .fail, message := "Missing date coverage",
          value := .num 0, expected := .num 1 }) ∧
    (df.isEmpty = false → "date" ∈ df.cols →
      ((_coverage_check name df s e).value =
        .num (((Finset.Icc s e ∩ df.dateSet).card : Rat) / (((Finset.Icc s e).card : Nat) : Rat)) ∧
       ((_coverage_check name df s e).status = .pass ↔
         95 / 100 ≤ coverage_ratio (((df.col "date").getD []).filterMap Value.date?) s e) ∧
       ((_coverage_check name df s e).status = .warn ↔
         75 / 100 ≤ coverage_ratio (((df.col "date").getD []).filterMap Value.date?) s e ∧
           coverage_ratio (((df.col "date").getD []).filterMap Value.date?) s e < 95 / 100) ∧
       ((_coverage_check name df s e).status = .fail ↔
         coverage_ratio (((df.col "date").getD []).filterMap Value.date?) s e < 75 / 100))) := by
  constructor
  · intro hcase
    unfold _coverage_check
    exact if_pos hcase
  · intro hemp hdate
    set r := coverage_ratio (((df.col "date").getD []).filterMap Value.date?) s e with hr
    have hcond : ¬ (df.isEmpty = true ∨ "date" ∉ df.cols) := by
      rw [not_or]
      exact ⟨by simp [hemp], not_not_intro hdate⟩
    have heq : _coverage_check name df s e =
        { name := name,
          status := if 95 / 100 ≤ r then .pass else if 75 / 100 ≤ r then .warn else .fail,
          message := "Coverage", value := .num r, expected := .str ">=95%" } := by
      unfold _coverage_check
      exact if_neg hcond
    refine ⟨?_, ?_, ?_, ?_⟩
    · rw [heq]
      show CheckVal.num r = _
      rw [hr, coverage_ratio_eq _ h]
      rfl
    · rw [heq]
      show (if 95 / 100 ≤ r then Status.pass else if 75 / 100 ≤ r then .warn else .fail) = _ ↔ _
      split_ifs with h95 h75 <;> simp [h95]
    · rw [heq]
      show (if 95 / 100 ≤ r then Status.pass else if 75 / 100 ≤ r then .warn else .fail) = _ ↔ _
      split_ifs with h95 h75
      · simp
        intro h75
        linarith
      · simp [h75, lt_of_not_le h95]
      · simp [h75]
    · rw [heq]
      show (if 95 / 100 ≤ r then Status.pass else if 75 / 100 ≤ r then .warn else .fail) = _ ↔ _
      split_ifs with h95 h75
      · simp
        linarith
      · simp
        linarith [lt_of_not_le h95]
      · simp [lt_of_not_le h75]

/-- C3 (witness): the missing-coverage branch exercised on the empty frame
over the window [1, 1] through the theorem. -/
theorem coverage_check_characterization_witness :
    (1 : Int) ≤ 1 ∧
    (emptyFrame.isEmpty = true ∨ "date" ∉ emptyFrame.cols) ∧
    _coverage_check "TSA coverage" emptyFrame 1 1 =
      { name := "TSA coverage", status := .fail, message := "Missing date coverage",
        value := .num 0, expected := .num 1 } :=
  ⟨le_refl 1, Or.inl rfl,
   (coverage_check_characterization "TSA coverage" emptyFrame 1 1 (le_refl 1)).1 (Or.inl rfl)⟩

/-! ### Except helper lemmas -/

theorem except_bind_ok {α β : Type} (x : Except String α) (f : α → Except String β) (b : β) :
    x >>= f = .ok b ↔ ∃ a, x = .ok a ∧ f a = .ok b := by
  cases x <;> simp [Bind.bind, Except.bind]

theorem except_pure_eq {α : Type} (a : α) : (pure a : Except String α) = .ok a := rfl

theorem except_throw_eq {α : Type} (m : String) : (throw m : Except String α) = .error m := rfl

theorem liftOpt_eq_ok {α : Type} (o : Option α) (msg : String) (a : α) :
    liftOpt o msg = .ok a ↔ o = some a := by
  cases o <;> simp [liftOpt]

/-! ### C7: the manifest content hash -/

/-- C7 (counterexample): `hashFrameB` is a row permutation of `hashFrameA`,
yet their content hashes differ — the hash is not order-independent. -/
theorem hash_dataframe_counterexample :
    List.Perm hashFrameA.rows hashFrameB.rows ∧
    _hash_dataframe hashFrameA ≠ _hash_dataframe hashFrameB := by
  constructor
  · decide
  · decide

/-- C7 (amended): the manifest hash is a function of the ordered row
sequence only — an empty dataset hashes to the empty-string sentinel, and
two datasets with identical row sequences (regardless of column names)
hash identically; row ORDER however matters (see the counterexample). -/
theorem hash_dataframe_row_sequence :
    (∀ df : Frame, df.isEmpty = true → _hash_dataframe df = "") ∧
    (∀ df1 df2 : Frame, df1.rows = df2.rows → df1.isEmpty = df2.isEmpty →
      _hash_dataframe df1 = _hash_dataframe df2) := by
  constructor
  · intro df h
    simp [_hash_dataframe, h]
  · intro df1 df2 hrows hemp
    unfold _hash_dataframe
    rw [hemp, hrows]

/-- C7 (witness): the empty-sentinel branch at the empty frame, and
row-sequence invariance across a column rename, via the theorem. -/
theorem hash_dataframe_row_sequence_witness :
    emptyFrame.isEmpty = true ∧ _hash_dataframe emptyFrame = "" ∧
    hashFrameA.rows = hashFrameC.rows ∧
    _hash_dataframe hashFrameA = _hash_dataframe hashFrameC :=
  ⟨rfl, hash_dataframe_row_sequence.1 emptyFrame rfl, rfl,
   hash_dataframe_row_sequence.2 hashFrameA hashFrameC rfl rfl⟩

/-! ### C8: transforms on empty input -/

/-- C8: on any empty raw input, both aggregation transforms return (rather
than raise) the empty daily aggregate carrying exactly the canonical
columns. -/
theorem transforms_empty_input (df : Frame) (airport : String) (include_canceled : Bool)
    (h : df.isEmpty = true) :
    build_daily_movements df airport include_canceled =
      .ok ⟨["date", "airport", "dep_count", "arr_count", "movements"], []⟩ ∧
    daily_metar_features df =
      .ok ⟨["date", "airport", "wind_mean", "gust_max", "vis_min", "ceiling_min",
            "precip_any", "ts_any", "ifr_any"], []⟩ := by
  constructor
  · unfold build_daily_movements
    simp [h, otpDailyCols, except_pure_eq]
  · unfold daily_metar_features
    simp [h, metarDailyCols, except_pure_eq]

/-- C8 (witness): the transforms applied to the literally empty frame. -/
theorem transforms_empty_input_witness :
    emptyFrame.isEmpty = true ∧
    build_daily_movements emptyFrame "KATL" false =
      .ok ⟨["date", "airport", "dep_count", "arr_count", "movements"], []⟩ ∧
    daily_metar_features emptyFrame =
      .ok ⟨["date", "airport", "wind_mean", "gust_max", "vis_min", "ceiling_min",
            "precip_any", "ts_any", "ifr_any"], []⟩ :=
  ⟨rfl, (transforms_empty_input emptyFrame "KATL" false rfl).1,
   (transforms_empty_input emptyFrame "KATL" false rfl).2⟩

/-! ### C9: determinism of the synthetic generators -/

/-- C9: each synthetic generator is a pure function of its entity codes and
window — two runs on equal inputs give identical frames — and the
throughput generator takes no entity at all (its seed is the fixed 42), so
equal windows alone give identical output. -/
theorem synthetic_generators_deterministic (airports1 airports2 : List String)
    (a1 a2 : String) (s1 e1 s2 e2 : Int)
    (hA : airports1 = airports2) (ha : a1 = a2) (hs : s1 = s2) (he : e1 = e2) :
    _synthetic_rows airports1 s1 e1 = _synthetic_rows airports2 s2 e2 ∧
    _synthetic_metar a1 s1 e1 = _synthetic_metar a2 s2 e2 ∧
    _synthetic_tsa s1 e1 = _synthetic_tsa s2 e2 := by
  subst hA
  subst ha
  subst hs
  subst he
  exact ⟨rfl, rfl, rfl⟩

/-- C9 (witness): two runs over the window [1, 3] for station KATL. -/
theorem synthetic_generators_deterministic_witness :
    _synthetic_rows ["KATL"] 1 3 = _synthetic_rows ["KATL"] 1 3 ∧
    _synthetic_metar "KATL" 1 3 = _synthetic_metar "KATL" 1 3 ∧
    _synthetic_tsa 1 3 = _synthetic_tsa 1 3 :=
  synthetic_generators_deterministic ["KATL"] ["KATL"] "KATL" "KATL" 1 3 1 3 rfl rfl rfl rfl

/-! ### C1: fetchers absorb every primary-path failure -/

/-- C1: for any primary-download outcome (parsed frame, network error or
parse error) and any window, each fetcher totally returns a frame that is
either the successfully processed primary dataset or the deterministic
synthetic fallback; no primary-path exception escapes. -/
theorem fetch_absorbs_primary_failures (primO primM primT : Except String Frame)
    (airports : List String) (airport : String) (s e : Int) (h : s ≤ e) :
    ((∃ f, fetchOtpPrimary primO airports s e = .ok f ∧ fetch_otp primO airports s e = f) ∨
      fetch_otp primO airports s e = _synthetic_rows airports s e) ∧
    ((∃ f, _download_metar primM = .ok f ∧ fetch_metar primM airport s e = f) ∨
      fetch_metar primM airport s e = _synthetic_metar airport s e) ∧
    ((∃ f, fetchTsaPrimary primT s e = .ok f ∧ fetch_tsa primT s e = f) ∨
      fetch_tsa primT s e = _synthetic_tsa s e) := by
  refine ⟨?_, ?_, ?_⟩
  · cases hp : fetchOtpPrimary primO airports s e with
    | ok f => exact Or.inl ⟨f, rfl, by unfold fetch_otp; rw [hp]⟩
    | error msg => exact Or.inr (by unfold fetch_otp; rw [hp])
  · cases hp : _download_metar primM with
    | ok f => exact Or.inl ⟨f, rfl, by unfold fetch_metar; rw [hp]⟩
    | error msg => exact Or.inr (by unfold fetch_metar; rw [hp])
  · cases hp : fetchTsaPrimary primT s e with
    | ok f => exact Or.inl ⟨f, rfl, by unfold fetch_tsa; rw [hp]⟩
    | error msg => exact Or.inr (by unfold fetch_tsa; rw [hp])

/-- C1 (witness): a failed download (connection error) over the window
[1, 3], for airports [KATL], via the theorem. -/
theorem fetch_absorbs_primary_failures_witness :
    (1 : Int) ≤ 3 ∧
    (((∃ f, fetchOtpPrimary (.error "connection error") ["KATL"] 1 3 = .ok f ∧
        fetch_otp (.error "connection error") ["KATL"] 1 3 = f) ∨
      fetch_otp (.error "connection error") ["KATL"] 1 3 = _synthetic_rows ["KATL"] 1 3) ∧
    ((∃ f, _download_metar (.error "connection error") = .ok f ∧
        fetch_metar (.error "connection error") "KATL" 1 3 = f) ∨
      fetch_metar (.error "connection error") "KATL" 1 3 = _synthetic_metar "KATL" 1 3) ∧
    ((∃ f, fetchTsaPrimary (.error "connection error") 1 3 = .ok f ∧
        fetch_tsa (.error "connection error") 1 3 = f) ∨
      fetch_tsa (.error "connection error") 1 3 = _synthetic_tsa 1 3)) :=
  ⟨by norm_num,
   fetch_absorbs_primary_failures (.error "connection error") (.error "connection error")
     (.error "connection error") ["KATL"] "KATL" 1 3 (by norm_num)⟩

/-! ### Name projections and filter lemmas for the check battery -/

theorem schema_check_name (n : String) (df : Frame) (req : List String) :
    (_schema_check n df req).name = n := rfl

theorem null_check_name (n : String) (df : Frame) : (_null_check n df).name = n := rfl

theorem duplicate_check_name (n : String) (df : Frame) (subset : List String) :
    (_duplicate_check n df subset).name = n := rfl

theorem coverage_check_name (n : String) (df : Frame) (s e : Int) :
    (_coverage_check n df s e).name = n := by
  unfold _coverage_check
  split <;> rfl

theorem value_range_check_name (n : String) (series : List Value) (mn mx : Rat) :
    (_value_range_check n series mn mx).name = n := by
  unfold _value_range_check
  split
  · rfl
  dsimp only
  split
  · rfl
  split <;> rfl

theorem overlapCheck_name (ds : Datasets) (s e : Int) :
    (overlapCheck ds s e).name = "Cross-dataset date overlap" := rfl

theorem filter_ite (p : CheckResult → Bool) (c : Prop) [Decidable c]
    (a b : List CheckResult) :
    (if c then a else b).filter p = if c then a.filter p else b.filter p := by
  split <;> rfl

/-- The cross-source overlap result appears in `run_all_checks` exactly when
all three daily aggregates are non-empty, and then exactly once. -/
theorem filter_run_overlap (ds : Datasets) (s e : Int) :
    (run_all_checks ds s e).filter (fun r => r.name = "Cross-dataset date overlap") =
      if ¬ ds.otp_daily.isEmpty ∧ ¬ ds.metar_daily.isEmpty ∧ ¬ ds.tsa_daily.isEmpty
      then [overlapCheck ds s e] else [] := by
  simp only [run_all_checks, List.filter_append, filter_ite, List.filter_cons, List.filter_nil,
    schema_check_name, null_check_name, duplicate_check_name, coverage_check_name,
    value_range_check_name, overlapCheck_name, decide_eq_true_eq, String.reduceEq,
    if_false, if_true, ite_self, List.append_nil, List.nil_append, reduceIte]

/-- The flight-ops duplicate check appears exactly when `otp_daily` is
non-empty. -/
theorem filter_run_otp_dup (ds : Datasets) (s e : Int) :
    (run_all_checks ds s e).filter (fun r => r.name = "OTP daily duplicates") =
      if ds.otp_daily.isEmpty then []
      else [_duplicate_check "OTP daily duplicates" ds.otp_daily ["date", "airport"]] := by
  simp only [run_all_checks, List.filter_append, filter_ite, List.filter_cons, List.filter_nil,
    schema_check_name, null_check_name, duplicate_check_name, coverage_check_name,
    value_range_check_name, overlapCheck_name, decide_eq_true_eq, String.reduceEq,
    if_false, if_true, ite_self, List.append_nil, List.nil_append, reduceIte]

/-- The weather duplicate check appears exactly when `metar_daily` is
non-empty. -/
theorem filter_run_metar_dup (ds : Datasets) (s e : Int) :
    (run_all_checks ds s e).filter (fun r => r.name = "METAR daily duplicates") =
      if ds.metar_daily.isEmpty then []
      else [_duplicate_check "METAR daily duplicates" ds.metar_daily ["date", "airport"]] := by
  simp only [run_all_checks, List.filter_append, filter_ite, List.filter_cons, List.filter_nil,
    schema_check_name, null_check_name, duplicate_check_name, coverage_check_name,
    value_range_check_name, overlapCheck_name, decide_eq_true_eq, String.reduceEq,
    if_false, if_true, ite_self, List.append_nil, List.nil_append, reduceIte]

/-- The throughput duplicate check appears exactly when `tsa_daily` is
non-empty. -/
theorem filter_run_tsa_dup (ds : Datasets) (s e : Int) :
    (run_all_checks ds s e).filter (fun r => r.name = "TSA duplicates") =
      if ds.tsa_daily.isEmpty then []
      else [_duplicate_check "TSA duplicates" ds.tsa_daily ["date"]] := by
  simp only [run_all_checks, List.filter_append, filter_ite, List.filter_cons, List.filter_nil,
    schema_check_name, null_check_name, duplicate_check_name, coverage_check_name,
    value_range_check_name, overlapCheck_name, decide_eq_true_eq, String.reduceEq,
    if_false, if_true, ite_self, List.append_nil, List.nil_append, reduceIte]

/-- The movements value-range check appears exactly when `otp_daily` has a
movements column — emptiness of the rows does not suppress it. -/
theorem filter_run_movements (ds : Datasets) (s e : Int) :
    (run_all_checks ds s e).filter (fun r => r.name = "Daily movements") =
      if "movements" ∈ ds.otp_daily.cols then
        [_value_range_check "Daily movements" ((ds.otp_daily.col "movements").getD []) 0 3000]
      else [] := by
  simp only [run_all_checks, List.filter_append, filter_ite, List.filter_cons, List.filter_nil,
    schema_check_name, null_check_name, duplicate_check_name, coverage_check_name,
    value_range_check_name, overlapCheck_name, decide_eq_true_eq, String.reduceEq,
    if_false, if_true, ite_self, List.append_nil, List.nil_append, reduceIte]

/-- The wind-mean value-range check appears exactly when its column
exists. -/
theorem filter_run_wind_mean (ds : Datasets) (s e : Int) :
    (run_all_checks ds s e).filter (fun r => r.name = "Wind mean") =
      if "wind_mean" ∈ ds.metar_daily.cols then
        [_value_range_check "Wind mean" ((ds.metar_daily.col "wind_mean").getD []) 0 150]
      else [] := by
  simp only [run_all_checks, List.filter_append, filter_ite, List.filter_cons, List.filter_nil,
    schema_check_name, null_check_name, duplicate_check_name, coverage_check_name,
    value_range_check_name, overlapCheck_name, decide_eq_true_eq, String.reduceEq,
    if_false, if_true, ite_self, List.append_nil, List.nil_append, reduceIte]

/-- The gust value-range check appears exactly when its column exists. -/
theorem filter_run_gust (ds : Datasets) (s e : Int) :
    (run_all_checks ds s e).filter (fun r => r.name = "Wind gust") =
      if "gust_max" ∈ ds.metar_daily.cols then
        [_value_range_check "Wind gust" ((ds.metar_daily.col "gust_max").getD []) 0 200]
      else [] := by
  simp only [run_all_checks, List.filter_append, filter_ite, List.filter_cons, List.filter_nil,
    schema_check_name, null_check_name, duplicate_check_name, coverage_check_name,
    value_range_check_name, overlapCheck_name, decide_eq_true_eq, String.reduceEq,
    if_false, if_true, ite_self, List.append_nil, List.nil_append, reduceIte]

/-- The visibility value-range check appears exactly when its column
exists. -/
theorem filter_run_visibility (ds : Datasets) (s e : Int) :
    (run_all_checks ds s e).filter (fun r => r.name = "Visibility") =
      if "vis_min" ∈ ds.metar_daily.cols then
        [_value_range_check "Visibility" ((ds.metar_daily.col "vis_min").getD []) 0 15]
      else [] := by
  simp only [run_all_checks, List.filter_append, filter_ite, List.filter_cons, List.filter_nil,
    schema_check_name, null_check_name, duplicate_check_name, coverage_check_name,
    value_range_check_name, overlapCheck_name, decide_eq_true_eq, String.reduceEq,
    if_false, if_true, ite_self, List.append_nil, List.nil_append, reduceIte]

/-- The ceiling value-range check appears exactly when its column exists. -/
theorem filter_run_ceiling (ds : Datasets) (s e : Int) :
    (run_all_checks ds s e).filter (fun r => r.name = "Ceiling") =
      if "ceiling_min" ∈ ds.metar_daily.cols then
        [_value_range_check "Ceiling" ((ds.metar_daily.col "ceiling_min").getD []) 0 20000]
      else [] := by
  simp only [run_all_checks, List.filter_append, filter_ite, List.filter_cons, List.filter_nil,
    schema_check_name, null_check_name, duplicate_check_name, coverage_check_name,
    value_range_check_name, overlapCheck_name, decide_eq_true_eq, String.reduceEq,
    if_false, if_true, ite_self, List.append_nil, List.nil_append, reduceIte]

/-- The throughput value-range check appears exactly when its column
exists. -/
theorem filter_run_travelers (ds : Datasets) (s e : Int) :
    (run_all_checks ds s e).filter (fun r => r.name = "TSA travelers") =
      if "tsa_travelers" ∈ ds.tsa_daily.cols then
        [_value_range_check "TSA travelers" ((ds.tsa_daily.col "tsa_travelers").getD [])
          1000 4000000]
      else [] := by
  simp only [run_all_checks, List.filter_append, filter_ite, List.filter_cons, List.filter_nil,
    schema_check_name, null_check_name, duplicate_check_name, coverage_check_name,
    value_range_check_name, overlapCheck_name, decide_eq_true_eq, String.reduceEq,
    if_false, if_true, ite_self, List.append_nil, List.nil_append, reduceIte]

/-! ### C2: the cross-source overlap check -/

/-- C2 (counterexample): with all three canonical daily aggregates
(carrying every column the duplicate, coverage and value-range checks key
on, so the real battery raises nowhere) populated only on day 2 and window
[1, 1], the emitted overlap check has ratio 1 and status Pass, while the
fraction of calendar dates in [1, 1] on which all three report data is 0 —
the claim's description of the ratio is false. -/
theorem cross_overlap_counterexample :
    dsOutside.otp_daily.isEmpty = false ∧ dsOutside.metar_daily.isEmpty = false ∧
    dsOutside.tsa_daily.isEmpty = false ∧
    specOverlapFraction dsOutside 1 1 = 0 ∧
    (run_all_checks dsOutside 1 1).filter (fun r => r.name = "Cross-dataset date overlap") =
      [{ name := "Cross-dataset date overlap", status := .pass, message := "Shared coverage",
         value := .num 1, expected := .str ">=80%" }] := by
  have hr : overlapRatio dsOutside 1 1 = 1 := by
    have hsh : (dsOutside.otp_daily.dateSet ∩ dsOutside.metar_daily.dateSet ∩
        dsOutside.tsa_daily.dateSet).card = 1 := by decide
    have hex : ((date_range (1 : Int) 1).toFinset).card = 1 := by decide
    have hne : ((date_range (1 : Int) 1).toFinset) ≠ ∅ := by decide
    simp only [overlapRatio]
    rw [if_neg hne, hsh, hex]
    norm_num
  refine ⟨rfl, rfl, rfl, ?_, ?_⟩
  · have hzero : ((date_range (1 : Int) 1).toFinset ∩
        (dsOutside.otp_daily.dateSet ∩ dsOutside.metar_daily.dateSet ∩
          dsOutside.tsa_daily.dateSet)) = ∅ := by decide
    simp only [specOverlapFraction]
    rw [hzero]
    simp
  · rw [filter_run_overlap]
    rw [if_pos ⟨by decide, by decide, by decide⟩]
    have hchk : overlapCheck dsOutside 1 1 =
        { name := "Cross-dataset date overlap", status := .pass, message := "Shared coverage",
          value := .num 1, expected := .str ">=80%" } := by
      simp only [overlapCheck]
      rw [hr]
      norm_num
    rw [hchk]

/-- C2 (amended): the overlap check is emitted iff all three daily
aggregates are non-empty; when emitted its ratio is the number of dates
shared by all three datasets — including dates outside the window — divided
by the number of calendar dates in [start, end], with Pass at or above 0.8,
Warn on [0.5, 0.8) and Fail below 0.5; three populated aggregates with
pairwise-disjoint date sets yield Fail with ratio 0.0. -/
theorem cross_overlap_check_characterization (ds : Datasets) (s e : Int) (h : s ≤ e) :
    ((run_all_checks ds s e).filter (fun r => r.name = "Cross-dataset date overlap") =
      if ¬ ds.otp_daily.isEmpty ∧ ¬ ds.metar_daily.isEmpty ∧ ¬ ds.tsa_daily.isEmpty
      then [overlapCheck ds s e] else []) ∧
    (overlapRatio ds s e =
      (((ds.otp_daily.dateSet ∩ ds.metar_daily.dateSet ∩ ds.tsa_daily.dateSet).card : Nat) : Rat) /
        (((Finset.Icc s e).card : Nat) : Rat)) ∧
    ((overlapCheck ds s e).value = .num (overlapRatio ds s e)) ∧
    ((overlapCheck ds s e).status = .pass ↔ 4 / 5 ≤ overlapRatio ds s e) ∧
    ((overlapCheck ds s e).status = .warn ↔
      1 / 2 ≤ overlapRatio ds s e ∧ overlapRatio ds s e < 4 / 5) ∧
    ((overlapCheck ds s e).status = .fail ↔ overlapRatio ds s e < 1 / 2) ∧
    (ds.otp_daily.dateSet ∩ ds.metar_daily.dateSet = ∅ →
      (overlapCheck ds s e).status = .fail ∧ (overlapCheck ds s e).value = .num 0) := by
  have hst : (overlapCheck ds s e).status =
      (if 4 / 5 ≤ overlapRatio ds s e then Status.pass
       else if 1 / 2 ≤ overlapRatio ds s e then Status.warn else Status.fail) := rfl
  refine ⟨filter_run_overlap ds s e, ?_, rfl, ?_, ?_, ?_, ?_⟩
  · simp only [overlapRatio, date_range_toFinset]
    rw [if_neg (Finset.nonempty_Icc.mpr h).ne_empty]
  · rw [hst]
    split_ifs with h45 h12
    · exact iff_of_true rfl h45
    · exact iff_of_false (by decide) h45
    · exact iff_of_false (by decide) h45
  · rw [hst]
    split_ifs with h45 h12
    · exact iff_of_false (by decide) (fun hw => absurd hw.2 (not_lt.mpr h45))
    · exact iff_of_true rfl ⟨h12, lt_of_not_le h45⟩
    · exact iff_of_false (by decide) (fun hw => absurd hw.1 h12)
  · rw [hst]
    split_ifs with h45 h12
    · exact iff_of_false (by decide) (fun hf => by linarith)
    · exact iff_of_false (by decide) (fun hf => by linarith)
    · exact iff_of_true rfl (lt_of_not_le h12)
  · intro hd
    have hr0 : overlapRatio ds s e = 0 := by
      simp only [overlapRatio]
      rw [hd]
      simp
    constructor
    · rw [hst, hr0]
      rw [if_neg (by norm_num), if_neg (by norm_num)]
    · show CheckVal.num (overlapRatio ds s e) = _
      rw [hr0]

/-- C2 (witness): the characterization instantiated on three populated
aggregates over the window [1, 1]. -/
theorem cross_overlap_check_characterization_witness :
    (1 : Int) ≤ 1 ∧
    ((run_all_checks dsOutside 1 1).filter (fun r => r.name = "Cross-dataset date overlap") =
      if ¬ dsOutside.otp_daily.isEmpty ∧ ¬ dsOutside.metar_daily.isEmpty ∧
          ¬ dsOutside.tsa_daily.isEmpty
      then [overlapCheck dsOutside 1 1] else []) ∧
    ((overlapCheck dsOutside 1 1).status = .pass ↔ 4 / 5 ≤ overlapRatio dsOutside 1 1) :=
  ⟨le_refl 1, (cross_overlap_check_characterization dsOutside 1 1 (le_refl 1)).1,
   (cross_overlap_check_characterization dsOutside 1 1 (le_refl 1)).2.2.2.1⟩

/-! ### C6: conditional checks are emitted or skipped -/

/-- C6 (counterexample): an empty flight-ops daily aggregate that still has
its canonical columns does NOT suppress the movements value-range check —
a Warn result for it appears in the battery output, refuting the claim that
a check whose target dataset is empty is skipped. -/
theorem conditional_checks_counterexample :
    emptyOtpDaily.isEmpty = true ∧
    (run_all_checks dsEmptyCols 1 1).filter (fun r => r.name = "Daily movements") =
      [{ name := "Daily movements", status := .warn, message := "Series empty",
         value := .none, expected := .str "range" }] := by
  refine ⟨rfl, ?_⟩
  rw [filter_run_movements]
  rw [if_pos (by decide : "movements" ∈ dsEmptyCols.otp_daily.cols)]
  rfl

/-- C6 (amended): the duplicate checks are skipped exactly when their target
dataset is empty and the cross-source overlap check exactly when any
aggregate is empty, but each value-range check is governed solely by the
presence of its target column: it is emitted even for an empty (but
columned) dataset, in which case its status is Warn with a Series-empty
message, not Fail and not skipped. -/
theorem conditional_checks_characterization (ds : Datasets) (s e : Int) :
    ((run_all_checks ds s e).filter (fun r => r.name = "OTP daily duplicates") =
      if ds.otp_daily.isEmpty then []
      else [_duplicate_check "OTP daily duplicates" ds.otp_daily ["date", "airport"]]) ∧
    ((run_all_checks ds s e).filter (fun r => r.name = "METAR daily duplicates") =
      if ds.metar_daily.isEmpty then []
      else [_duplicate_check "METAR daily duplicates" ds.metar_daily ["date", "airport"]]) ∧
    ((run_all_checks ds s e).filter (fun r => r.name = "TSA duplicates") =
      if ds.tsa_daily.isEmpty then []
      else [_duplicate_check "TSA duplicates" ds.tsa_daily ["date"]]) ∧
    ((run_all_checks ds s e).filter (fun r => r.name = "Daily movements") =
      if "movements" ∈ ds.otp_daily.cols then
        [_value_range_check "Daily movements" ((ds.otp_daily.col "movements").getD []) 0 3000]
      else []) ∧
    ((run_all_checks ds s e).filter (fun r => r.name = "Wind mean") =
      if "wind_mean" ∈ ds.metar_daily.cols then
        [_value_range_check "Wind mean" ((ds.metar_daily.col "wind_mean").getD []) 0 150]
      else []) ∧
    ((run_all_checks ds s e).filter (fun r => r.name = "Wind gust") =
      if "gust_max" ∈ ds.metar_daily.cols then
        [_value_range_check "Wind gust" ((ds.metar_daily.col "gust_max").getD []) 0 200]
      else []) ∧
    ((run_all_checks ds s e).filter (fun r => r.name = "Visibility") =
      if "vis_min" ∈ ds.metar_daily.cols then
        [_value_range_check "Visibility" ((ds.metar_daily.col "vis_min").getD []) 0 15]
      else []) ∧
    ((run_all_checks ds s e).filter (fun r => r.name = "Ceiling") =
      if "ceiling_min" ∈ ds.metar_daily.cols then
        [_value_range_check "Ceiling" ((ds.metar_daily.col "ceiling_min").getD []) 0 20000]
      else []) ∧
    ((run_all_checks ds s e).filter (fun r => r.name = "TSA travelers") =
      if "tsa_travelers" ∈ ds.tsa_daily.cols then
        [_value_range_check "TSA travelers" ((ds.tsa_daily.col "tsa_travelers").getD [])
          1000 4000000]
      else []) ∧
    ((run_all_checks ds s e).filter (fun r => r.name = "Cross-dataset date overlap") =
      if ¬ ds.otp_daily.isEmpty ∧ ¬ ds.metar_daily.isEmpty ∧ ¬ ds.tsa_daily.isEmpty
      then [overlapCheck ds s e] else []) ∧
    (∀ (n : String) (mn mx : Rat),
      (_value_range_check n [] mn mx).status = Status.warn ∧
      (_value_range_check n [] mn mx).message = "Series empty") :=
  ⟨filter_run_otp_dup ds s e, filter_run_metar_dup ds s e, filter_run_tsa_dup ds s e,
   filter_run_movements ds s e, filter_run_wind_mean ds s e, filter_run_gust ds s e,
   filter_run_visibility ds s e, filter_run_ceiling ds s e, filter_run_travelers ds s e,
   filter_run_overlap ds s e, fun n mn mx => ⟨rfl, rfl⟩⟩

/-! ### C10: the shape of fetch_tsa results -/

theorem mem_of_findIdx?_eq_some {l : List String} {nm : String} {i : Nat}
    (h : l.findIdx? (· = nm) = some i) : nm ∈ l := by
  by_contra hmem
  rw [show l.findIdx? (· = nm) = none from List.findIdx?_eq_none_iff.mpr ?_] at h
  · cases h
  · intro a ha
    simp only [decide_eq_false_iff_not]
    intro heq
    exact hmem (heq ▸ ha)

theorem synthetic_tsa_cols (s e : Int) :
    (_synthetic_tsa s e).cols = ["date", "tsa_travelers"] := rfl

/-- Any successful primary result of `fetch_tsa` carries exactly the
canonical two columns, and its production required a tsa_travelers column
after renaming. -/
theorem fetchTsaPrimary_ok (raw : Except String Frame) (s e : Int) (f : Frame)
    (hok : fetchTsaPrimary raw s e = .ok f) :
    f.cols = ["date", "tsa_travelers"] ∧
    ∃ df0, raw = .ok df0 ∧ "tsa_travelers" ∈ tsaRenamedCols df0.cols := by
  cases raw with
  | error m =>
    exfalso
    simp [fetchTsaPrimary, Bind.bind, Except.bind] at hok
  | ok df0 =>
    unfold fetchTsaPrimary at hok
    simp only [Bind.bind, Except.bind, throw, throwThe, MonadExceptOf.throw, pure,
      Except.pure] at hok
    by_cases hguard : ¬ (List.map (fun c => asciiLower (asciiStrip c)) df0.cols).contains "date" = true
    · rw [if_pos hguard] at hok
      exact Except.noConfusion hok
    · rw [if_neg hguard] at hok
      cases hDate : liftOpt (List.findIdx? (fun x => decide (x = "date")) (tsaRenamedCols df0.cols))
          "KeyError: date" with
      | error msg =>
        rw [hDate] at hok
        exact Except.noConfusion hok
      | ok iDate =>
        rw [hDate] at hok
        simp only [] at hok
        cases hMap : liftOpt ((List.map (fun r => r.getD iDate Value.null) df0.rows).mapM Value.date?)
            "to_datetime failed" with
        | error msg =>
          rw [hMap] at hok
          exact Except.noConfusion hok
        | ok dummy =>
          rw [hMap] at hok
          simp only [] at hok
          cases hTrav : liftOpt (List.findIdx? (fun x => decide (x = "tsa_travelers"))
              (tsaRenamedCols df0.cols)) "KeyError: tsa_travelers" with
          | error msg =>
            rw [hTrav] at hok
            exact Except.noConfusion hok
          | ok iTrav =>
            rw [hTrav] at hok
            simp only [] at hok
            split at hok
            · exact Except.noConfusion hok
            · injection hok with hfeq
              refine ⟨?_, df0, rfl, ?_⟩
              · rw [← hfeq]
              · exact mem_of_findIdx?_eq_some ((liftOpt_eq_ok _ _ _).mp hTrav)

/-- C10: for any primary-download outcome and non-degenerate window,
`fetch_tsa` returns a frame whose columns are exactly [date, tsa_travelers]
in that order; a primary response from which no tsa_travelers column can be
produced falls back to the synthetic dataset. -/
theorem fetch_tsa_shape (raw : Except String Frame) (s e : Int) (h : s ≤ e) :
    (fetch_tsa raw s e).cols = ["date", "tsa_travelers"] ∧
    (∀ df0, raw = .ok df0 → "tsa_travelers" ∉ tsaRenamedCols df0.cols →
      fetch_tsa raw s e = _synthetic_tsa s e) := by
  constructor
  · cases hp : fetchTsaPrimary raw s e with
    | ok f =>
      have hc := (fetchTsaPrimary_ok raw s e f hp).1
      unfold fetch_tsa
      rw [hp]
      exact hc
    | error msg =>
      unfold fetch_tsa
      rw [hp]
      exact synthetic_tsa_cols s e
  · intro df0 hdf0 hmem
    cases hp : fetchTsaPrimary raw s e with
    | ok f =>
      obtain ⟨-, df1, hdf1, hmem1⟩ := fetchTsaPrimary_ok raw s e f hp
      rw [hdf0] at hdf1
      injection hdf1 with h01
      exact absurd (h01 ▸ hmem1) hmem
    | error msg =>
      unfold fetch_tsa
      rw [hp]

/-- C10 (witness): a failed download yields the canonical columns via the
synthetic fallback, and a primary frame lacking any traveler column falls
back to the synthetic dataset, both over the window [1, 3]. -/
theorem fetch_tsa_shape_witness :
    (1 : Int) ≤ 3 ∧
    (fetch_tsa (.error "connection error") 1 3).cols = ["date", "tsa_travelers"] ∧
    fetch_tsa (.ok ⟨["Date"], [[Value.date 2]]⟩) 1 3 = _synthetic_tsa 1 3 :=
  ⟨by norm_num, (fetch_tsa_shape (.error "connection error") 1 3 (by norm_num)).1,
   (fetch_tsa_shape (.ok ⟨["Date"], [[Value.date 2]]⟩) 1 3 (by norm_num)).2
     ⟨["Date"], [[Value.date 2]]⟩ rfl (by decide)⟩

end Aviation
